import Mathlib

set_option maxHeartbeats 1000000

/-!
Shallow embedding of `core/vulkan/vk_api/cc/layer.cpp`, the VkApi Vulkan
interception layer: link-info extraction, layer/extension enumeration, the
instance- and device-scoped resolvers, the bootstrap procedures
(`vkCreateInstance`, `vkCreateDevice`) and the trace-emitting
`vkDebugMarkerSetObjectNameEXT` handler.

Machine pointers are modelled with `Option` (`none` = null); dereferencing or
calling a null pointer, an out-of-bounds buffer write, and a device lookup for
an unregistered device are modelled as `Except.error` crash markers.  The next
chain segment is an external collaborator and enters as an environment of
semantic functions.
-/

namespace vk_api

/-- Vulkan result codes used by the layer; every other failure code is
`otherError`. -/
inductive VkResult where
  | VK_SUCCESS
  | VK_INCOMPLETE
  | VK_ERROR_INITIALIZATION_FAILED
  | otherError (code : Nat)
deriving DecidableEq, Repr

/-- Undefined behaviour the C++ can reach: null dereference, call through a
null function pointer, write past a buffer, lookup of an unregistered
device. -/
inductive Crash where
  | nullDeref
  | nullCall
  | oobWrite
  | unregisteredDevice
deriving DecidableEq, Repr

/-- A function address.  One constructor per local handler of the layer whose
address is taken by a resolver; `driver n` is an address owned by the next
chain segment. -/
inductive FnAddr where
  | h_vkGetInstanceProcAddr
  | h_vkCreateInstance
  | h_vkCreateDevice
  | h_vkDebugMarkerSetObjectNameEXT
  | h_vkSetDebugUtilsObjectNameEXT
  | h_vkDebugMarkerSetObjectTagEXT
  | h_vkEnumerateDeviceLayerProperties
  | h_vkEnumerateDeviceExtensionProperties
  | h_vkEnumerateInstanceLayerProperties
  | h_vkGetDeviceProcAddr
  | h_vkCmdDebugMarkerBeginEXT
  | h_vkCmdDebugMarkerEndEXT
  | h_vkCmdDebugMarkerInsertEXT
  | driver (n : Nat)
deriving DecidableEq, Repr

/-- Call names the layer compares against (string constants of layer.cpp). -/
def nGetInstanceProcAddr : String := "vkGetInstanceProcAddr"

def nGetDeviceProcAddr : String := "vkGetDeviceProcAddr"

def nCreateInstance : String := "vkCreateInstance"

def nCreateDevice : String := "vkCreateDevice"

def nDebugMarkerSetObjectNameEXT : String := "vkDebugMarkerSetObjectNameEXT"

def nSetDebugUtilsObjectNameEXT : String := "vkSetDebugUtilsObjectNameEXT"

def nDebugMarkerSetObjectTagEXT : String := "vkDebugMarkerSetObjectTagEXT"

def nEnumerateDeviceLayerProperties : String := "vkEnumerateDeviceLayerProperties"

def nEnumerateDeviceExtensionProperties : String := "vkEnumerateDeviceExtensionProperties"

def nEnumerateInstanceLayerProperties : String := "vkEnumerateInstanceLayerProperties"

def nCmdDebugMarkerBeginEXT : String := "vkCmdDebugMarkerBeginEXT"

def nCmdDebugMarkerEndEXT : String := "vkCmdDebugMarkerEndEXT"

def nCmdDebugMarkerInsertEXT : String := "vkCmdDebugMarkerInsertEXT"

/-- Layer name constant: `#define LAYER_NAME "VkApi"`. -/
def LAYER_NAME : String := "VkApi"

/-- The `VkLayerFunction` discriminant of a loader chain node. -/
inductive VkLayerFunction where
  | VK_LAYER_LINK_INFO
  | VK_LOADER_DATA_CALLBACK
deriving DecidableEq, Repr

/-- One `VkLayerInstanceLink` / `VkLayerDeviceLink` entry: the next segment's
instance-scoped and (device chains only) device-scoped resolver addresses.
The `pNext` chaining of links is modelled by the position in a list. -/
structure LayerLink where
  pfnNextGetInstanceProcAddr : Option FnAddr
  pfnNextGetDeviceProcAddr : Option FnAddr
deriving DecidableEq, Repr

/-- One node of the `pNext` chain attached to a creation-parameters structure,
viewed through the `VkLayerInstanceCreateInfo` / `VkLayerDeviceCreateInfo`
shape the C++ casts every node to: a structure tag, a layer-function
discriminant, and the `u.pLayerInfo` list of links. -/
structure ChainNode where
  sType : Nat
  lfunction : VkLayerFunction
  pLayerInfo : List LayerLink
deriving DecidableEq, Repr

/-- Tag `VK_STRUCTURE_TYPE_LOADER_INSTANCE_CREATE_INFO` (vulkan_core.h value 47). -/
def VK_STRUCTURE_TYPE_LOADER_INSTANCE_CREATE_INFO : Nat := 47

/-- Tag `VK_STRUCTURE_TYPE_LOADER_DEVICE_CREATE_INFO` (vulkan_core.h value 48). -/
def VK_STRUCTURE_TYPE_LOADER_DEVICE_CREATE_INFO : Nat := 48

/-- Scope tag `link_info_traits<T>::sType`: the loader tag selected by the compile-time
scope (`true` = instance scope, `false` = device scope). -/
def link_info_sType (isInst : Bool) : Nat :=
  if isInst then VK_STRUCTURE_TYPE_LOADER_INSTANCE_CREATE_INFO
  else VK_STRUCTURE_TYPE_LOADER_DEVICE_CREATE_INFO

/-- The function `get_layer_link_info` (layer.cpp lines 101-118): walk the `pNext` chain and
return the first node whose tag is the scope-appropriate loader tag and whose
layer-function field is `VK_LAYER_LINK_INFO`; `none` when the list runs out. -/
def get_layer_link_info (isInst : Bool) : List ChainNode → Option ChainNode
  | [] => none
  | node :: rest =>
    if node.sType = link_info_sType isInst ∧
        node.lfunction = VkLayerFunction.VK_LAYER_LINK_INFO then
      some node
    else get_layer_link_info isInst rest

/-- The Bool-valued matching condition of `get_layer_link_info`, used to state
properties of the traversal. -/
def isLinkInfoNode (isInst : Bool) (node : ChainNode) : Bool :=
  decide (node.sType = link_info_sType isInst ∧
    node.lfunction = VkLayerFunction.VK_LAYER_LINK_INFO)

/-- Model of `memcpy` of one element to the start of a buffer; `none` when the buffer
has no room (out-of-bounds write in the C++). -/
def writeHead {α : Type} (entry : α) : List α → Option (List α)
  | [] => none
  | _ :: rest => some (entry :: rest)

/-- Write of one element at index `i` of a buffer; `none` when `i` is past the
end (out-of-bounds write in the C++). -/
def writeIdx {α : Type} (i : Nat) (entry : α) (l : List α) : Option (List α) :=
  if i < l.length then some (l.set i entry) else none

/-- A `VkLayerProperties` record. -/
structure VkLayerProperties where
  layerName : String
  specVersion : Nat
  implementationVersion : Nat
  description : String
deriving DecidableEq, Repr

/-- Description string of the layer's `VkLayerProperties` entry. -/
def layerDescription : String := "Vk Api"

/-- Version value `VK_VERSION_MAJOR(1) | VK_VERSION_MINOR(0) | 5` as the C macros expand:
`(1 >> 22) | ((0 >> 12) & 0x3ff) | 5 = 5`. -/
def layerSpecVersion : Nat := (1 >>> 22) ||| ((0 >>> 12) &&& 0x3ff) ||| 5

/-- The single entry of `global_layer_properties` (layer.cpp lines 121-126). -/
def global_layer_properties : VkLayerProperties :=
  { layerName := LAYER_NAME
    specVersion := layerSpecVersion
    implementationVersion := 1
    description := layerDescription }

/-- The function `get_layer_properties` (layer.cpp lines 128-141).  Arguments model the two
pointers: `pPropertyCount` is `none` when the count pointer is null, otherwise
`some` of the value it points to on entry; `pProperties` is `none` for a null
buffer, otherwise the buffer contents, whose list length is the buffer's
allocated capacity.  Returns the result code, the value stored through the
count pointer (or `none` if never written), and the final buffer. -/
def get_layer_properties (pPropertyCount : Option Nat)
    (pProperties : Option (List VkLayerProperties)) :
    Except Crash (VkResult × Option Nat × Option (List VkLayerProperties)) :=
  match pProperties with
  | none =>
    match pPropertyCount with
    | none => Except.error Crash.nullDeref
    | some _ => Except.ok (VkResult.VK_SUCCESS, some 1, none)
  | some buf =>
    match pPropertyCount with
    | none =>
      -- the C++ comparison `pPropertyCount == 0` tests the POINTER, not the
      -- capacity it points to
      Except.ok (VkResult.VK_INCOMPLETE, none, some buf)
    | some _ =>
      match writeHead global_layer_properties buf with
      | none => Except.error Crash.oobWrite
      | some buf2 => Except.ok (VkResult.VK_SUCCESS, some 1, some buf2)

/-- A `VkExtensionProperties` record. -/
structure VkExtensionProperties where
  extensionName : String
  specVersion : Nat
deriving DecidableEq, Repr

/-- Extension name `VK_EXT_DEBUG_MARKER_EXTENSION_NAME`. -/
def debugMarkerExtensionName : String := "VK_EXT_debug_marker"

/-- The single entry of `device_extensions` (layer.cpp line 157):
`{VK_EXT_DEBUG_MARKER_EXTENSION_NAME, VK_EXT_DEBUG_MARKER_SPEC_VERSION}`. -/
def device_extensions : VkExtensionProperties :=
  { extensionName := debugMarkerExtensionName, specVersion := 4 }

/-- Count-query phase of the next segment's
`vkEnumerateDeviceExtensionProperties`, modelled as a conforming Vulkan
counted-output implementation over its extension list `exts`: with a null
buffer it stores its count and succeeds. -/
def nextEnumerateCount (exts : List VkExtensionProperties) : VkResult × Nat :=
  (VkResult.VK_SUCCESS, exts.length)

/-- Fill phase of the next segment's `vkEnumerateDeviceExtensionProperties`:
given capacity `cap` and a buffer, it writes `min cap |exts|` entries into the
buffer prefix, overwrites the count with the number written, and reports
`VK_INCOMPLETE` when the capacity did not hold them all. -/
def nextEnumerateFill (exts : List VkExtensionProperties) (cap : Nat)
    (buf : List VkExtensionProperties) :
    VkResult × Nat × List VkExtensionProperties :=
  let n := min cap exts.length
  (if n < exts.length then VkResult.VK_INCOMPLETE else VkResult.VK_SUCCESS,
   n, exts.take n ++ buf.drop n)

/-- The function `vkEnumerateDeviceExtensionProperties` (layer.cpp lines 160-188).
`nextExts` is the extension list of the next chain segment (reached through
the stored forwarding pointer); pointer arguments are modelled as in
`get_layer_properties`. -/
def vkEnumerateDeviceExtensionProperties (nextExts : List VkExtensionProperties)
    (pLayerName : Option String) (pPropertyCount : Option Nat)
    (pProperties : Option (List VkExtensionProperties)) :
    Except Crash (VkResult × Option Nat × Option (List VkExtensionProperties)) :=
  if pLayerName = some LAYER_NAME then
    match pProperties, pPropertyCount with
    | none, none => Except.error Crash.nullDeref
    | none, some _ => Except.ok (VkResult.VK_SUCCESS, some 1, none)
    | some _, none => Except.error Crash.nullDeref
    | some buf, some cap =>
      if 0 < cap then
        match writeHead device_extensions buf with
        | none => Except.error Crash.oobWrite
        | some buf2 => Except.ok (VkResult.VK_SUCCESS, some cap, some buf2)
      else Except.ok (VkResult.VK_SUCCESS, some cap, some buf)
  else
    match pProperties, pPropertyCount with
    | none, none => Except.error Crash.nullDeref
    | none, some _ =>
      let call := nextEnumerateCount nextExts
      if call.1 = VkResult.VK_SUCCESS then
        Except.ok (call.1, some (call.2 + 1), none)
      else Except.ok (call.1, some call.2, none)
    | some _, none => Except.error Crash.nullDeref
    | some buf, some cap =>
      if 0 < cap then
        let call := nextEnumerateFill nextExts cap buf
        -- memcpy(&pProperties[*pPropertyCount - 1], device_extensions, ...)
        -- where *pPropertyCount was just overwritten by the next segment
        if call.2.1 = 0 then Except.error Crash.oobWrite
        else
          match writeIdx (call.2.1 - 1) device_extensions call.2.2 with
          | none => Except.error Crash.oobWrite
          | some buf2 => Except.ok (VkResult.VK_SUCCESS, some call.2.1, some buf2)
      else Except.ok (VkResult.VK_SUCCESS, some cap, some buf)

/-- The function `vkEnumerateInstanceExtensionProperties` (layer.cpp lines 192-199): writes
0 through the count pointer when it is non-null and returns `VK_SUCCESS`; the
buffer and the layer name are never read and nothing is forwarded. -/
def vkEnumerateInstanceExtensionProperties (pLayerName : Option String)
    (pPropertyCount : Option Nat)
    (pProperties : Option (List VkExtensionProperties)) :
    VkResult × Option Nat × Option (List VkExtensionProperties) :=
  (VkResult.VK_SUCCESS,
   match pPropertyCount with
   | none => none
   | some _ => some 0,
   pProperties)

/-- A `VkDebugMarkerObjectNameInfoEXT` record (the fields the handler reads). -/
structure VkDebugMarkerObjectNameInfoEXT where
  objectType : Nat
  object : Nat
  pObjectName : String
deriving DecidableEq, Repr

/-- The mutable state the `vkDebugMarkerSetObjectNameEXT` handler touches: its
`static int cnt` (initialised to 1) and the `GpuRenderStageDataSource` instance
fields `first` (initialised to true) and `count`. -/
structure TraceState where
  cnt : Nat
  first : Bool
  count : Nat
deriving DecidableEq, Repr

/-- Queue/stage names of the one-time specification record. -/
def queueName0 : String := "queue 0"

/-- Second queue name of the specification record. -/
def queueName1 : String := "queue 1"

/-- First stage name of the specification record. -/
def stageName0 : String := "stage 0"

/-- Second stage name of the specification record. -/
def stageName1 : String := "stage 1"

/-- Third stage name of the specification record. -/
def stageName2 : String := "stage 2"

/-- A trace packet emitted by the handler.  `vkDebugMarker` packets go to the
`vk_api` data source (`VkApiDataSource`); `renderStageSpec` and `renderStage`
packets go to the `gpu.renderstages` data source
(`GpuRenderStageDataSource`). -/
inductive Packet where
  | vkDebugMarker (timestamp : Nat) (vkDevice : Nat) (objectType : Nat)
      (object : Nat) (objectName : String)
  | renderStageSpec (timestamp : Nat) (hwQueues : List String)
      (stages : List String)
  | renderStage (timestamp : Nat) (eventId : Nat) (duration : Nat)
      (hwQueueId : Nat) (stageId : Nat) (contextId : Nat)
      (renderTargetHandle : Nat)
deriving DecidableEq, Repr

/-- True for the packets that belong to the `gpu.renderstages` stream. -/
def isRenderStagePacket : Packet → Bool
  | Packet.vkDebugMarker _ _ _ _ _ => false
  | Packet.renderStageSpec _ _ _ => true
  | Packet.renderStage _ _ _ _ _ _ _ => true

/-- The sub-sequence of packets emitted to the `gpu.renderstages` stream. -/
def renderStageStream (ps : List Packet) : List Packet :=
  ps.filter isRenderStagePacket

/-- Handler `vkDebugMarkerSetObjectNameEXT` (layer.cpp lines 203-259), with both data
sources active.  Emits one `vkDebugMarker` packet (timestamp `cnt*10 - 1`);
then, if the render-stage data source's `first` flag is set, clears `count`,
emits the specification packet (timestamp 0, queues `queue 0`/`queue 1`,
stages `stage 0`/`stage 1`/`stage 2`) and clears `first`; then emits the
per-call render-stage packet (timestamp `cnt*10`, event id `cnt`, duration 5,
queue `cnt % 2`, stage `cnt % 3`, context 42, render target = the named
object) and increments `cnt`.  Always returns `VK_SUCCESS`. -/
def vkDebugMarkerSetObjectNameEXT (device : Nat)
    (pNameInfo : VkDebugMarkerObjectNameInfoEXT) (st : TraceState) :
    VkResult × TraceState × List Packet :=
  let apiPacket := Packet.vkDebugMarker (st.cnt * 10 - 1) device
    pNameInfo.objectType pNameInfo.object pNameInfo.pObjectName
  let stagePart : List Packet × TraceState :=
    if st.first then
      ([Packet.renderStageSpec 0 [queueName0, queueName1]
          [stageName0, stageName1, stageName2]],
       { st with count := 0, first := false })
    else ([], st)
  let stagePacket := Packet.renderStage (st.cnt * 10) st.cnt 5 (st.cnt % 2)
    (st.cnt % 3) 42 pNameInfo.object
  (VkResult.VK_SUCCESS, { stagePart.2 with cnt := st.cnt + 1 },
   apiPacket :: (stagePart.1 ++ [stagePacket]))

/-- The context-scoped `InstanceData` forwarding table: next-segment addresses
resolved at instance creation (null when the next resolver yielded none). -/
structure InstanceData where
  vkGetInstanceProcAddr : Option FnAddr
  vkSetDebugUtilsObjectNameEXT : Option FnAddr
  vkEnumerateDeviceExtensionProperties : Option FnAddr
  vkDebugMarkerSetObjectNameEXT : Option FnAddr
  vkDebugMarkerSetObjectTagEXT : Option FnAddr
  vkCmdDebugMarkerBeginEXT : Option FnAddr
  vkCmdDebugMarkerEndEXT : Option FnAddr
  vkCmdDebugMarkerInsertEXT : Option FnAddr
deriving DecidableEq, Repr

/-- The device-scoped `DeviceData` forwarding table. -/
structure DeviceData where
  gpu : Nat
  vkGetDeviceProcAddr : Option FnAddr
  vkDebugMarkerSetObjectNameEXT : Option FnAddr
  vkDebugMarkerSetObjectTagEXT : Option FnAddr
deriving DecidableEq, Repr

/-- The process-wide `Context` of layer.cpp: the single instance forwarding
table and the device registry (`unordered_map<VkDevice, DeviceData>`,
modelled as an association list keyed by device identity). -/
structure Context where
  instanceData : InstanceData
  deviceMap : List (Nat × DeviceData)
deriving DecidableEq, Repr

/-- Registry lookup, `unordered_map::find` on the device registry: the value stored under `dev`,
or `none`. -/
def getDeviceData (dev : Nat) : List (Nat × DeviceData) → Option DeviceData
  | [] => none
  | (k, v) :: rest => if k = dev then some v else getDeviceData dev rest

/-- Number of registry entries whose key is `dev`. -/
def countKey (dev : Nat) (m : List (Nat × DeviceData)) : Nat :=
  (m.filter (fun p => p.1 = dev)).length

/-- The behaviour of the rest of the chain: semantics of calling a function
address as the next instance-scoped resolver (`ipaSem`), as the next
device-scoped resolver (`dpaSem`), as the next segment's `vkCreateInstance`
(result plus the instance written through `pInstance`), and as the next
segment's `vkCreateDevice`. -/
structure Env where
  ipaSem : FnAddr → Option Nat → String → Option FnAddr
  dpaSem : FnAddr → Nat → String → Option FnAddr
  callCreateInstance : FnAddr → VkResult × Nat
  callCreateDevice : FnAddr → Nat → VkResult × Nat

/-- Externally visible side effects of the bootstrap procedures, in order:
perfetto data-source registrations (opening a named trace stream) and the
forwarded creation call of the next segment with its result. -/
inductive Event where
  | registerDataSource (dsName : String)
  | nextCreateInstanceCall (r : VkResult)
  | nextCreateDeviceCall (r : VkResult)
deriving DecidableEq, Repr

/-- Data-source name registered for `GpuRenderStageDataSource`. -/
def dsRenderStages : String := "gpu.renderstages"

/-- Data-source name registered for `VkApiDataSource`. -/
def dsVkApi : String := "vk_api"

/-- The `pNext` chain of a `VkInstanceCreateInfo`. -/
structure VkInstanceCreateInfo where
  pNext : List ChainNode
deriving DecidableEq, Repr

/-- The `pNext` chain of a `VkDeviceCreateInfo`. -/
structure VkDeviceCreateInfo where
  pNext : List ChainNode
deriving DecidableEq, Repr

/-- Bootstrap `vkCreateInstance` (layer.cpp lines 305-385).  Registers the two perfetto
data sources, extracts the instance link node, resolves the next segment's
`vkCreateInstance` through the link's resolver, forwards the call, and on
success resolves the forwarding pointers (bound to the new instance) and
stores them as the process context's instance data.  The first component
lists the side effects in order; the second is the result with the updated
context, or a crash marker where the C++ would dereference or call a null
pointer. -/
def vkCreateInstance (env : Env) (ctx : Context)
    (pCreateInfo : VkInstanceCreateInfo) :
    List Event × Except Crash (VkResult × Context) :=
  let regEvents : List Event :=
    [Event.registerDataSource dsRenderStages, Event.registerDataSource dsVkApi]
  match get_layer_link_info true pCreateInfo.pNext with
  | none => (regEvents, Except.error Crash.nullDeref)
  | some layer_info =>
    match layer_info.pLayerInfo with
    | [] => (regEvents, Except.error Crash.nullDeref)
    | link :: _ =>
      match link.pfnNextGetInstanceProcAddr with
      | none => (regEvents, Except.error Crash.nullCall)
      | some gipaAddr =>
        match env.ipaSem gipaAddr none nCreateInstance with
        | none =>
          (regEvents, Except.ok (VkResult.VK_ERROR_INITIALIZATION_FAILED, ctx))
        | some createInstanceAddr =>
          let call := env.callCreateInstance createInstanceAddr
          let events := regEvents ++ [Event.nextCreateInstanceCall call.1]
          if call.1 = VkResult.VK_SUCCESS then
            match env.ipaSem gipaAddr (some call.2)
                nEnumerateDeviceExtensionProperties with
            | none =>
              (events,
               Except.ok (VkResult.VK_ERROR_INITIALIZATION_FAILED, ctx))
            | some _ =>
              let data : InstanceData :=
                { vkGetInstanceProcAddr :=
                    env.ipaSem gipaAddr (some call.2) nGetInstanceProcAddr
                  vkSetDebugUtilsObjectNameEXT :=
                    env.ipaSem gipaAddr (some call.2) nSetDebugUtilsObjectNameEXT
                  vkEnumerateDeviceExtensionProperties :=
                    env.ipaSem gipaAddr (some call.2)
                      nEnumerateDeviceExtensionProperties
                  vkDebugMarkerSetObjectNameEXT :=
                    env.ipaSem gipaAddr (some call.2) nDebugMarkerSetObjectNameEXT
                  vkDebugMarkerSetObjectTagEXT :=
                    env.ipaSem gipaAddr (some call.2) nDebugMarkerSetObjectTagEXT
                  vkCmdDebugMarkerBeginEXT :=
                    env.ipaSem gipaAddr (some call.2) nCmdDebugMarkerBeginEXT
                  vkCmdDebugMarkerEndEXT :=
                    env.ipaSem gipaAddr (some call.2) nCmdDebugMarkerEndEXT
                  vkCmdDebugMarkerInsertEXT :=
                    env.ipaSem gipaAddr (some call.2) nCmdDebugMarkerInsertEXT }
              (events,
               Except.ok (VkResult.VK_SUCCESS, { ctx with instanceData := data }))
          else (events, Except.ok (call.1, ctx))

/-- Bootstrap `vkCreateDevice` (layer.cpp lines 390-451).  Extracts the device link
node, resolves the next segment's `vkCreateDevice` through the link's
instance-scoped resolver, keeps the link's device-scoped resolver, forwards
the call, and on success resolves the device forwarding pointers and inserts
them into the device registry — unless the created device identity is already
registered, in which case it returns `VK_ERROR_INITIALIZATION_FAILED` and
leaves the registry untouched. -/
def vkCreateDevice (env : Env) (ctx : Context) (gpu : Nat)
    (pCreateInfo : VkDeviceCreateInfo) :
    List Event × Except Crash (VkResult × Context) :=
  match get_layer_link_info false pCreateInfo.pNext with
  | none => ([], Except.error Crash.nullDeref)
  | some layer_info =>
    match layer_info.pLayerInfo with
    | [] => ([], Except.error Crash.nullDeref)
    | link :: _ =>
      match link.pfnNextGetInstanceProcAddr with
      | none => ([], Except.error Crash.nullCall)
      | some gipaAddr =>
        match env.ipaSem gipaAddr none nCreateDevice with
        | none => ([], Except.ok (VkResult.VK_ERROR_INITIALIZATION_FAILED, ctx))
        | some createDeviceAddr =>
          let gdpa := link.pfnNextGetDeviceProcAddr
          let call := env.callCreateDevice createDeviceAddr gpu
          let events := [Event.nextCreateDeviceCall call.1]
          if call.1 = VkResult.VK_SUCCESS then
            match gdpa with
            | none => (events, Except.error Crash.nullCall)
            | some gdpaAddr =>
              let data : DeviceData :=
                { gpu := gpu
                  vkGetDeviceProcAddr :=
                    env.dpaSem gdpaAddr call.2 nGetDeviceProcAddr
                  vkDebugMarkerSetObjectNameEXT :=
                    env.dpaSem gdpaAddr call.2 nDebugMarkerSetObjectNameEXT
                  vkDebugMarkerSetObjectTagEXT :=
                    env.dpaSem gdpaAddr call.2 nDebugMarkerSetObjectTagEXT }
              if (getDeviceData call.2 ctx.deviceMap).isSome then
                (events,
                 Except.ok (VkResult.VK_ERROR_INITIALIZATION_FAILED, ctx))
              else
                (events,
                 Except.ok (VkResult.VK_SUCCESS,
                   { ctx with deviceMap := (call.2, data) :: ctx.deviceMap }))
          else (events, Except.ok (call.1, ctx))

/-- The fixed allow-list of the instance-scoped resolver (layer.cpp lines
495-504), in interception order. -/
def instanceInterceptNames : List String :=
  [nGetInstanceProcAddr, nCreateInstance, nCreateDevice,
   nDebugMarkerSetObjectNameEXT, nSetDebugUtilsObjectNameEXT,
   nDebugMarkerSetObjectTagEXT, nEnumerateDeviceLayerProperties,
   nEnumerateDeviceExtensionProperties, nEnumerateInstanceLayerProperties]

/-- The fixed allow-list of the device-scoped resolver (layer.cpp lines
464-469), in interception order. -/
def deviceInterceptNames : List String :=
  [nGetDeviceProcAddr, nDebugMarkerSetObjectNameEXT,
   nDebugMarkerSetObjectTagEXT, nCmdDebugMarkerBeginEXT,
   nCmdDebugMarkerEndEXT, nCmdDebugMarkerInsertEXT]

/-- Resolver `vkGetInstanceProcAddr` (layer.cpp lines 487-515): a chain of `strcmp`
tests returning the local handler's address for each intercepted name, else a
forwarded call through the stored next-segment instance resolver. -/
def vkGetInstanceProcAddr (env : Env) (ctx : Context) (inst : Option Nat)
    (funcName : String) : Except Crash (Option FnAddr) :=
  if funcName = nGetInstanceProcAddr then
    Except.ok (some FnAddr.h_vkGetInstanceProcAddr)
  else if funcName = nCreateInstance then
    Except.ok (some FnAddr.h_vkCreateInstance)
  else if funcName = nCreateDevice then
    Except.ok (some FnAddr.h_vkCreateDevice)
  else if funcName = nDebugMarkerSetObjectNameEXT then
    Except.ok (some FnAddr.h_vkDebugMarkerSetObjectNameEXT)
  else if funcName = nSetDebugUtilsObjectNameEXT then
    Except.ok (some FnAddr.h_vkSetDebugUtilsObjectNameEXT)
  else if funcName = nDebugMarkerSetObjectTagEXT then
    Except.ok (some FnAddr.h_vkDebugMarkerSetObjectTagEXT)
  else if funcName = nEnumerateDeviceLayerProperties then
    Except.ok (some FnAddr.h_vkEnumerateDeviceLayerProperties)
  else if funcName = nEnumerateDeviceExtensionProperties then
    Except.ok (some FnAddr.h_vkEnumerateDeviceExtensionProperties)
  else if funcName = nEnumerateInstanceLayerProperties then
    Except.ok (some FnAddr.h_vkEnumerateInstanceLayerProperties)
  else
    match ctx.instanceData.vkGetInstanceProcAddr with
    | none => Except.error Crash.nullCall
    | some a => Except.ok (env.ipaSem a inst funcName)

/-- Resolver `vkGetDeviceProcAddr` (layer.cpp lines 456-480): interception chain, else
a forwarded call through the device's stored next-segment resolver looked up
in the device registry (undefined when the device was never registered). -/
def vkGetDeviceProcAddr (env : Env) (ctx : Context) (dev : Nat)
    (funcName : String) : Except Crash (Option FnAddr) :=
  if funcName = nGetDeviceProcAddr then
    Except.ok (some FnAddr.h_vkGetDeviceProcAddr)
  else if funcName = nDebugMarkerSetObjectNameEXT then
    Except.ok (some FnAddr.h_vkDebugMarkerSetObjectNameEXT)
  else if funcName = nDebugMarkerSetObjectTagEXT then
    Except.ok (some FnAddr.h_vkDebugMarkerSetObjectTagEXT)
  else if funcName = nCmdDebugMarkerBeginEXT then
    Except.ok (some FnAddr.h_vkCmdDebugMarkerBeginEXT)
  else if funcName = nCmdDebugMarkerEndEXT then
    Except.ok (some FnAddr.h_vkCmdDebugMarkerEndEXT)
  else if funcName = nCmdDebugMarkerInsertEXT then
    Except.ok (some FnAddr.h_vkCmdDebugMarkerInsertEXT)
  else
    match getDeviceData dev ctx.deviceMap with
    | none => Except.error Crash.unregisteredDevice
    | some data =>
      match data.vkGetDeviceProcAddr with
      | none => Except.error Crash.nullCall
      | some a => Except.ok (env.dpaSem a dev funcName)

/-! Concrete fixtures used to instantiate the theorems below. -/

/-- Instance data with every stored pointer null (the initial process
context). -/
def emptyInstanceData : InstanceData :=
  ⟨none, none, none, none, none, none, none, none⟩

/-- The initial process context: no instance data, empty device registry. -/
def ctx0 : Context := ⟨emptyInstanceData, []⟩

/-- A chain link whose next-segment resolvers are driver addresses 2 and 3. -/
def linkW : LayerLink := ⟨some (FnAddr.driver 2), some (FnAddr.driver 3)⟩

/-- An instance-scope loader link node. -/
def instChainNodeW : ChainNode :=
  ⟨VK_STRUCTURE_TYPE_LOADER_INSTANCE_CREATE_INFO,
   VkLayerFunction.VK_LAYER_LINK_INFO, [linkW]⟩

/-- A device-scope loader link node. -/
def devChainNodeW : ChainNode :=
  ⟨VK_STRUCTURE_TYPE_LOADER_DEVICE_CREATE_INFO,
   VkLayerFunction.VK_LAYER_LINK_INFO, [linkW]⟩

/-- Instance-creation parameters carrying exactly the instance link node. -/
def ciW : VkInstanceCreateInfo := ⟨[instChainNodeW]⟩

/-- Device-creation parameters carrying exactly the device link node. -/
def dciW : VkDeviceCreateInfo := ⟨[devChainNodeW]⟩

/-- A benign chain environment: every resolution yields driver address 0
(instance scope) or 1 (device scope); creation succeeds with instance 7 and
device 5. -/
def envOk : Env :=
  { ipaSem := fun _ _ _ => some (FnAddr.driver 0)
    dpaSem := fun _ _ _ => some (FnAddr.driver 1)
    callCreateInstance := fun _ => (VkResult.VK_SUCCESS, 7)
    callCreateDevice := fun _ _ => (VkResult.VK_SUCCESS, 5) }

/-- A chain environment whose creation routines fail with driver-level
errors. -/
def envFail : Env :=
  { ipaSem := fun _ _ _ => some (FnAddr.driver 0)
    dpaSem := fun _ _ _ => some (FnAddr.driver 1)
    callCreateInstance := fun _ => (VkResult.otherError 1, 0)
    callCreateDevice := fun _ _ => (VkResult.otherError 2, 0) }

/-- A device forwarding table supposedly registered earlier for device 5. -/
def devDataW : DeviceData :=
  ⟨9, some (FnAddr.driver 4), some (FnAddr.driver 5), some (FnAddr.driver 6)⟩

/-- A process context in which device 5 is already registered. -/
def ctxD : Context := ⟨emptyInstanceData, [(5, devDataW)]⟩

/-- The instance data a successful `vkCreateInstance` stores under `envOk`:
every resolution yielded driver address 0. -/
def instDataOk : InstanceData :=
  ⟨some (FnAddr.driver 0), some (FnAddr.driver 0), some (FnAddr.driver 0),
   some (FnAddr.driver 0), some (FnAddr.driver 0), some (FnAddr.driver 0),
   some (FnAddr.driver 0), some (FnAddr.driver 0)⟩

/-- The process context after a successful `vkCreateInstance` under `envOk`. -/
def ctxAfterOk : Context := ⟨instDataOk, []⟩

/-- A Vulkan call name no resolver of the layer intercepts. -/
def nDestroyInstance : String := "vkDestroyInstance"

/-- An extension owned by the next chain segment. -/
def extOther : VkExtensionProperties :=
  { extensionName := "VK_KHR_swapchain", specVersion := 70 }

/-- Uninitialised contents of a caller-allocated extension buffer slot. -/
def extGarbage : VkExtensionProperties :=
  { extensionName := "", specVersion := 0 }

/-- A debug-marker name-info argument. -/
def niA : VkDebugMarkerObjectNameInfoEXT :=
  { objectType := 2, object := 8, pObjectName := "alpha" }

/-- Another debug-marker name-info argument. -/
def niB : VkDebugMarkerObjectNameInfoEXT :=
  { objectType := 3, object := 11, pObjectName := "beta" }

/-! Claim theorems. -/

/-- C10: for every input, `vkEnumerateInstanceExtensionProperties` returns
`VK_SUCCESS`, writes zero through a non-null count pointer, leaves the buffer
untouched, and (as the definition takes no chain environment) never forwards
to the next segment — the shim advertises no instance-level extensions,
regardless of the layer-name argument. -/
theorem c10_no_instance_extensions (pLayerName : Option String)
    (pPropertyCount : Option Nat)
    (pProperties : Option (List VkExtensionProperties)) :
    vkEnumerateInstanceExtensionProperties pLayerName pPropertyCount
        pProperties =
      (VkResult.VK_SUCCESS, pPropertyCount.map (fun _ => 0), pProperties) := by
  cases pPropertyCount <;> rfl

/-- C8 (failing evaluation): with a non-null buffer of capacity zero
(`*pPropertyCount = 0` on entry), `get_layer_properties` does not report
`VK_INCOMPLETE` — it writes one entry past the end of the buffer, because the
C++ compares the count POINTER (not the capacity it points to) against zero;
`VK_INCOMPLETE` is returned exactly when the count pointer is null.  The
null-buffer count query behaves as claimed. -/
theorem c8_capacity_zero_not_incomplete :
    get_layer_properties (some 0) (some []) = Except.error Crash.oobWrite ∧
    get_layer_properties none (some [global_layer_properties]) =
      Except.ok (VkResult.VK_INCOMPLETE, none, some [global_layer_properties]) ∧
    get_layer_properties (some 0) none =
      Except.ok (VkResult.VK_SUCCESS, some 1, none) :=
  ⟨rfl, rfl, rfl⟩

/-- C7 (failing evaluation): with the next segment owning exactly one
extension, the count query reports C = 2, but the fill call with a buffer of
capacity 2 fills and reports only 1 entry: the next segment overwrote
`*pPropertyCount` with its own count 1, and the shim then wrote its synthetic
entry at index 0, on top of the next segment's entry, which is lost. -/
theorem c7_fill_phase_loses_entry :
    vkEnumerateDeviceExtensionProperties [extOther] none (some 0) none =
      Except.ok (VkResult.VK_SUCCESS, some 2, none) ∧
    vkEnumerateDeviceExtensionProperties [extOther] none (some 2)
        (some [extGarbage, extGarbage]) =
      Except.ok (VkResult.VK_SUCCESS, some 1,
        some [device_extensions, extGarbage]) :=
  ⟨rfl, rfl⟩

/-- C1: for every name in the instance-scoped resolver's allow-list the
instance resolver, and for every name in the device-scoped resolver's
allow-list the device resolver, returns the address of the layer's local
handler — for every environment, context, instance and device, so the next
segment is never consulted. -/
theorem c1_intercepted_names_resolve_locally (env : Env) (ctx : Context)
    (inst : Option Nat) (dev : Nat) :
    vkGetInstanceProcAddr env ctx inst nGetInstanceProcAddr =
      Except.ok (some FnAddr.h_vkGetInstanceProcAddr) ∧
    vkGetInstanceProcAddr env ctx inst nCreateInstance =
      Except.ok (some FnAddr.h_vkCreateInstance) ∧
    vkGetInstanceProcAddr env ctx inst nCreateDevice =
      Except.ok (some FnAddr.h_vkCreateDevice) ∧
    vkGetInstanceProcAddr env ctx inst nDebugMarkerSetObjectNameEXT =
      Except.ok (some FnAddr.h_vkDebugMarkerSetObjectNameEXT) ∧
    vkGetInstanceProcAddr env ctx inst nSetDebugUtilsObjectNameEXT =
      Except.ok (some FnAddr.h_vkSetDebugUtilsObjectNameEXT) ∧
    vkGetInstanceProcAddr env ctx inst nDebugMarkerSetObjectTagEXT =
      Except.ok (some FnAddr.h_vkDebugMarkerSetObjectTagEXT) ∧
    vkGetInstanceProcAddr env ctx inst nEnumerateDeviceLayerProperties =
      Except.ok (some FnAddr.h_vkEnumerateDeviceLayerProperties) ∧
    vkGetInstanceProcAddr env ctx inst nEnumerateDeviceExtensionProperties =
      Except.ok (some FnAddr.h_vkEnumerateDeviceExtensionProperties) ∧
    vkGetInstanceProcAddr env ctx inst nEnumerateInstanceLayerProperties =
      Except.ok (some FnAddr.h_vkEnumerateInstanceLayerProperties) ∧
    vkGetDeviceProcAddr env ctx dev nGetDeviceProcAddr =
      Except.ok (some FnAddr.h_vkGetDeviceProcAddr) ∧
    vkGetDeviceProcAddr env ctx dev nDebugMarkerSetObjectNameEXT =
      Except.ok (some FnAddr.h_vkDebugMarkerSetObjectNameEXT) ∧
    vkGetDeviceProcAddr env ctx dev nDebugMarkerSetObjectTagEXT =
      Except.ok (some FnAddr.h_vkDebugMarkerSetObjectTagEXT) ∧
    vkGetDeviceProcAddr env ctx dev nCmdDebugMarkerBeginEXT =
      Except.ok (some FnAddr.h_vkCmdDebugMarkerBeginEXT) ∧
    vkGetDeviceProcAddr env ctx dev nCmdDebugMarkerEndEXT =
      Except.ok (some FnAddr.h_vkCmdDebugMarkerEndEXT) ∧
    vkGetDeviceProcAddr env ctx dev nCmdDebugMarkerInsertEXT =
      Except.ok (some FnAddr.h_vkCmdDebugMarkerInsertEXT) := by
  refine ⟨?_, ?_, ?_, ?_, ?_, ?_, ?_, ?_, ?_, ?_, ?_, ?_, ?_, ?_, ?_⟩ <;> rfl

/-- C5: for every scope, the link-info extractor returns the unique node of a
chain whose tag is the scope-appropriate loader tag and whose layer-function
field is the link-info value when the chain contains exactly one such node,
and returns null when the chain contains none. -/
theorem c5_link_info_extractor (isInst : Bool) (chain : List ChainNode)
    (node : ChainNode) :
    (chain.filter (isLinkInfoNode isInst) = [node] →
      get_layer_link_info isInst chain = some node) ∧
    (chain.filter (isLinkInfoNode isInst) = [] →
      get_layer_link_info isInst chain = none) := by
  induction chain with
  | nil => exact ⟨fun h => by simp at h, fun _ => rfl⟩
  | cons c cs ih =>
    by_cases hc : c.sType = link_info_sType isInst ∧
        c.lfunction = VkLayerFunction.VK_LAYER_LINK_INFO
    · constructor
      · intro h
        simp only [List.filter_cons, isLinkInfoNode, decide_eq_true_eq,
          if_pos hc] at h
        simp only [get_layer_link_info, if_pos hc]
        exact congrArg some (List.cons_eq_cons.mp h).1
      · intro h
        simp only [List.filter_cons, isLinkInfoNode, decide_eq_true_eq,
          if_pos hc] at h
        exact absurd h (List.cons_ne_nil _ _)
    · have hfilter : (c :: cs).filter (isLinkInfoNode isInst) =
          cs.filter (isLinkInfoNode isInst) := by
        simp only [List.filter_cons, isLinkInfoNode, decide_eq_true_eq,
          if_neg hc]
      constructor
      · intro h
        rw [hfilter] at h
        simp only [get_layer_link_info, if_neg hc]
        exact ih.1 h
      · intro h
        rw [hfilter] at h
        simp only [get_layer_link_info, if_neg hc]
        exact ih.2 h

/-- Witness for C5: a one-node instance chain at instance scope yields that
node; the same chain at device scope has no matching node and yields null. -/
theorem c5_link_info_extractor_witness :
    get_layer_link_info true [instChainNodeW] = some instChainNodeW ∧
    get_layer_link_info false [instChainNodeW] = none :=
  ⟨(c5_link_info_extractor true [instChainNodeW] instChainNodeW).1 (by decide),
   (c5_link_info_extractor false [instChainNodeW] instChainNodeW).2 (by decide)⟩

/-- C6: for every handler state whose render-stage `first` flag is set,
invoking `vkDebugMarkerSetObjectNameEXT` twice in sequence returns the fixed
success result both times, clears the flag after the first invocation, and
emits on the render-stage stream exactly one specification record (with the
fixed queue and stage names) followed by the two per-call records, whose
sequence-derived timestamps are strictly increasing. -/
theorem c6_schema_once_then_two_records (st : TraceState)
    (hfirst : st.first = true) (dev1 dev2 : Nat)
    (ni1 ni2 : VkDebugMarkerObjectNameInfoEXT) :
    (vkDebugMarkerSetObjectNameEXT dev1 ni1 st).1 = VkResult.VK_SUCCESS ∧
    (vkDebugMarkerSetObjectNameEXT dev1 ni1 st).2.1.first = false ∧
    (vkDebugMarkerSetObjectNameEXT dev2 ni2
        (vkDebugMarkerSetObjectNameEXT dev1 ni1 st).2.1).1 =
      VkResult.VK_SUCCESS ∧
    renderStageStream ((vkDebugMarkerSetObjectNameEXT dev1 ni1 st).2.2 ++
        (vkDebugMarkerSetObjectNameEXT dev2 ni2
          (vkDebugMarkerSetObjectNameEXT dev1 ni1 st).2.1).2.2) =
      [Packet.renderStageSpec 0 [queueName0, queueName1]
          [stageName0, stageName1, stageName2],
       Packet.renderStage (st.cnt * 10) st.cnt 5 (st.cnt % 2) (st.cnt % 3) 42
         ni1.object,
       Packet.renderStage ((st.cnt + 1) * 10) (st.cnt + 1) 5 ((st.cnt + 1) % 2)
         ((st.cnt + 1) % 3) 42 ni2.object] ∧
    st.cnt * 10 < (st.cnt + 1) * 10 := by
  obtain ⟨cnt, first, count⟩ := st
  simp only at hfirst
  subst hfirst
  refine ⟨rfl, rfl, rfl, ?_, by omega⟩
  simp [vkDebugMarkerSetObjectNameEXT, renderStageStream, isRenderStagePacket,
    List.filter]

/-- Witness for C6: the two-call scenario from the initial handler state
(`cnt = 1`, `first` set). -/
theorem c6_schema_once_then_two_records_witness :
    (vkDebugMarkerSetObjectNameEXT 3 niA ⟨1, true, 0⟩).1 =
      VkResult.VK_SUCCESS ∧
    (vkDebugMarkerSetObjectNameEXT 3 niA ⟨1, true, 0⟩).2.1.first = false ∧
    (vkDebugMarkerSetObjectNameEXT 4 niB
        (vkDebugMarkerSetObjectNameEXT 3 niA ⟨1, true, 0⟩).2.1).1 =
      VkResult.VK_SUCCESS ∧
    renderStageStream ((vkDebugMarkerSetObjectNameEXT 3 niA ⟨1, true, 0⟩).2.2 ++
        (vkDebugMarkerSetObjectNameEXT 4 niB
          (vkDebugMarkerSetObjectNameEXT 3 niA ⟨1, true, 0⟩).2.1).2.2) =
      [Packet.renderStageSpec 0 [queueName0, queueName1]
          [stageName0, stageName1, stageName2],
       Packet.renderStage 10 1 5 1 1 42 niA.object,
       Packet.renderStage 20 2 5 0 2 42 niB.object] ∧
    1 * 10 < (1 + 1) * 10 :=
  c6_schema_once_then_two_records ⟨1, true, 0⟩ rfl 3 4 niA niB

/-- C3: when the device identity produced by the next segment's successful
`vkCreateDevice` is already present in the device registry, the call returns
`VK_ERROR_INITIALIZATION_FAILED` (the initialization error, not a propagated
driver error) and leaves the whole context — in particular the pre-existing
registry entry for that identity — unchanged, so the registry still holds
exactly one entry for that identity. -/
theorem c3_duplicate_device_identity_rejected (env : Env) (ctx : Context)
    (gpu : Nat) (ci : VkDeviceCreateInfo) (node : ChainNode) (link : LayerLink)
    (links : List LayerLink) (g ca gd : FnAddr) (d : Nat)
    (oldData : DeviceData)
    (h1 : get_layer_link_info false ci.pNext = some node)
    (h2 : node.pLayerInfo = link :: links)
    (h3 : link.pfnNextGetInstanceProcAddr = some g)
    (h4 : env.ipaSem g none nCreateDevice = some ca)
    (h5 : link.pfnNextGetDeviceProcAddr = some gd)
    (h6 : env.callCreateDevice ca gpu = (VkResult.VK_SUCCESS, d))
    (h7 : getDeviceData d ctx.deviceMap = some oldData)
    (h8 : countKey d ctx.deviceMap = 1) :
    (vkCreateDevice env ctx gpu ci).2 =
      Except.ok (VkResult.VK_ERROR_INITIALIZATION_FAILED, ctx) ∧
    getDeviceData d ctx.deviceMap = some oldData ∧
    countKey d ctx.deviceMap = 1 := by
  refine ⟨?_, h7, h8⟩
  simp [vkCreateDevice, h1, h2, h3, h4, h5, h6, h7]

/-- Witness for C3: re-creating device 5, which `ctxD` already registers. -/
theorem c3_duplicate_device_identity_rejected_witness :
    (vkCreateDevice envOk ctxD 9 dciW).2 =
      Except.ok (VkResult.VK_ERROR_INITIALIZATION_FAILED, ctxD) ∧
    getDeviceData 5 ctxD.deviceMap = some devDataW ∧
    countKey 5 ctxD.deviceMap = 1 :=
  c3_duplicate_device_identity_rejected envOk ctxD 9 dciW devChainNodeW linkW
    [] (FnAddr.driver 2) (FnAddr.driver 0) (FnAddr.driver 3) 5 devDataW rfl rfl
    rfl rfl rfl rfl rfl rfl

/-- C9: the identity-collision rejection happens only after the next
segment's `vkCreateDevice` has already been invoked and returned success —
the event trace of the rejected call is exactly one successful downstream
create-device call, so the downstream device object exists even though the
shim reports an initialization failure and registers no state for it. -/
theorem c9_collision_after_downstream_create (env : Env) (ctx : Context)
    (gpu : Nat) (ci : VkDeviceCreateInfo) (node : ChainNode) (link : LayerLink)
    (links : List LayerLink) (g ca gd : FnAddr) (d : Nat)
    (oldData : DeviceData)
    (h1 : get_layer_link_info false ci.pNext = some node)
    (h2 : node.pLayerInfo = link :: links)
    (h3 : link.pfnNextGetInstanceProcAddr = some g)
    (h4 : env.ipaSem g none nCreateDevice = some ca)
    (h5 : link.pfnNextGetDeviceProcAddr = some gd)
    (h6 : env.callCreateDevice ca gpu = (VkResult.VK_SUCCESS, d))
    (h7 : getDeviceData d ctx.deviceMap = some oldData) :
    vkCreateDevice env ctx gpu ci =
      ([Event.nextCreateDeviceCall VkResult.VK_SUCCESS],
       Except.ok (VkResult.VK_ERROR_INITIALIZATION_FAILED, ctx)) := by
  simp [vkCreateDevice, h1, h2, h3, h4, h5, h6, h7]

/-- Witness for C9: the rejected re-creation of device 5 under `envOk`. -/
theorem c9_collision_after_downstream_create_witness :
    vkCreateDevice envOk ctxD 9 dciW =
      ([Event.nextCreateDeviceCall VkResult.VK_SUCCESS],
       Except.ok (VkResult.VK_ERROR_INITIALIZATION_FAILED, ctxD)) :=
  c9_collision_after_downstream_create envOk ctxD 9 dciW devChainNodeW linkW
    [] (FnAddr.driver 2) (FnAddr.driver 0) (FnAddr.driver 3) 5 devDataW rfl rfl
    rfl rfl rfl rfl rfl

/-- C4 counterexample: a `vkCreateInstance` invocation whose forwarded
creation fails (propagated verbatim, context unchanged) nonetheless performs
the two perfetto data-source registrations — i.e. opens the layer's trace
streams — because the registration happens unconditionally before
forwarding.  This refutes the claim that no tracing-backend registration
occurs as a side effect of a failed attempt. -/
theorem c4_registration_despite_failure_counterexample :
    vkCreateInstance envFail ctx0 ciW =
      ([Event.registerDataSource dsRenderStages,
        Event.registerDataSource dsVkApi,
        Event.nextCreateInstanceCall (VkResult.otherError 1)],
       Except.ok (VkResult.otherError 1, ctx0)) := rfl

/-- C4 (amended): when the next segment's creation routine fails, both
bootstrap procedures propagate the failure result verbatim and leave the
context (instance data and device registry) unchanged; `vkCreateDevice`
performs no tracing-backend registration at all, while `vkCreateInstance`
performs exactly its two unconditional data-source registrations — which
therefore do occur even on the failed attempt — and nothing else. -/
theorem c4_failure_propagated_no_state (env : Env) (ctx : Context)
    (ci : VkInstanceCreateInfo) (gpu : Nat) (dci : VkDeviceCreateInfo)
    (nodeI : ChainNode) (linkI : LayerLink) (linksI : List LayerLink)
    (gI caI : FnAddr) (r : VkResult) (i : Nat)
    (nodeD : ChainNode) (linkD : LayerLink) (linksD : List LayerLink)
    (gD caD : FnAddr) (s : VkResult) (d : Nat)
    (hi1 : get_layer_link_info true ci.pNext = some nodeI)
    (hi2 : nodeI.pLayerInfo = linkI :: linksI)
    (hi3 : linkI.pfnNextGetInstanceProcAddr = some gI)
    (hi4 : env.ipaSem gI none nCreateInstance = some caI)
    (hi5 : env.callCreateInstance caI = (r, i))
    (hi6 : r ≠ VkResult.VK_SUCCESS)
    (hd1 : get_layer_link_info false dci.pNext = some nodeD)
    (hd2 : nodeD.pLayerInfo = linkD :: linksD)
    (hd3 : linkD.pfnNextGetInstanceProcAddr = some gD)
    (hd4 : env.ipaSem gD none nCreateDevice = some caD)
    (hd5 : env.callCreateDevice caD gpu = (s, d))
    (hd6 : s ≠ VkResult.VK_SUCCESS) :
    vkCreateInstance env ctx ci =
      ([Event.registerDataSource dsRenderStages,
        Event.registerDataSource dsVkApi, Event.nextCreateInstanceCall r],
       Except.ok (r, ctx)) ∧
    vkCreateDevice env ctx gpu dci =
      ([Event.nextCreateDeviceCall s], Except.ok (s, ctx)) := by
  constructor
  · simp [vkCreateInstance, hi1, hi2, hi3, hi4, hi5, hi6]
  · simp [vkCreateDevice, hd1, hd2, hd3, hd4, hd5, hd6]

/-- Witness for the amended C4: the failing environment `envFail`. -/
theorem c4_failure_propagated_no_state_witness :
    vkCreateInstance envFail ctx0 ciW =
      ([Event.registerDataSource dsRenderStages,
        Event.registerDataSource dsVkApi,
        Event.nextCreateInstanceCall (VkResult.otherError 1)],
       Except.ok (VkResult.otherError 1, ctx0)) ∧
    vkCreateDevice envFail ctx0 9 dciW =
      ([Event.nextCreateDeviceCall (VkResult.otherError 2)],
       Except.ok (VkResult.otherError 2, ctx0)) :=
  c4_failure_propagated_no_state envFail ctx0 ciW 9 dciW instChainNodeW linkW
    [] (FnAddr.driver 2) (FnAddr.driver 0) (VkResult.otherError 1) 0
    devChainNodeW linkW [] (FnAddr.driver 2) (FnAddr.driver 0)
    (VkResult.otherError 2) 0 rfl rfl rfl rfl rfl (by decide) rfl rfl rfl rfl
    rfl (by decide)

/-- C2: after a successful context creation, resolving any name NOT in the
instance allow-list through `vkGetInstanceProcAddr` returns exactly the value
the stored next-segment instance resolver (the address `a` the next segment
returned for its own `vkGetInstanceProcAddr`) yields for that same instance
and name — including the not-found sentinel, since the equation pins every
possible value. -/
theorem c2_non_intercepted_pass_through (env : Env) (ctx ctx2 : Context)
    (ci : VkInstanceCreateInfo) (node : ChainNode) (link : LayerLink)
    (links : List LayerLink) (g ca e a : FnAddr) (i : Nat) (inst : Option Nat)
    (funcName : String)
    (h1 : get_layer_link_info true ci.pNext = some node)
    (h2 : node.pLayerInfo = link :: links)
    (h3 : link.pfnNextGetInstanceProcAddr = some g)
    (h4 : env.ipaSem g none nCreateInstance = some ca)
    (h5 : env.callCreateInstance ca = (VkResult.VK_SUCCESS, i))
    (h6 : env.ipaSem g (some i) nEnumerateDeviceExtensionProperties = some e)
    (h7 : env.ipaSem g (some i) nGetInstanceProcAddr = some a)
    (h8 : (vkCreateInstance env ctx ci).2 =
      Except.ok (VkResult.VK_SUCCESS, ctx2))
    (h9 : funcName ∉ instanceInterceptNames) :
    vkGetInstanceProcAddr env ctx2 inst funcName =
      Except.ok (env.ipaSem a inst funcName) := by
  have hrun : (vkCreateInstance env ctx ci).2 =
      Except.ok (VkResult.VK_SUCCESS,
        { ctx with instanceData :=
          { vkGetInstanceProcAddr := env.ipaSem g (some i) nGetInstanceProcAddr
            vkSetDebugUtilsObjectNameEXT :=
              env.ipaSem g (some i) nSetDebugUtilsObjectNameEXT
            vkEnumerateDeviceExtensionProperties :=
              env.ipaSem g (some i) nEnumerateDeviceExtensionProperties
            vkDebugMarkerSetObjectNameEXT :=
              env.ipaSem g (some i) nDebugMarkerSetObjectNameEXT
            vkDebugMarkerSetObjectTagEXT :=
              env.ipaSem g (some i) nDebugMarkerSetObjectTagEXT
            vkCmdDebugMarkerBeginEXT :=
              env.ipaSem g (some i) nCmdDebugMarkerBeginEXT
            vkCmdDebugMarkerEndEXT :=
              env.ipaSem g (some i) nCmdDebugMarkerEndEXT
            vkCmdDebugMarkerInsertEXT :=
              env.ipaSem g (some i) nCmdDebugMarkerInsertEXT } }) := by
    simp [vkCreateInstance, h1, h2, h3, h4, h5, h6]
  rw [hrun] at h8
  simp only [Except.ok.injEq, Prod.mk.injEq, true_and] at h8
  subst h8
  simp only [instanceInterceptNames, List.mem_cons, List.mem_singleton,
    not_or, List.not_mem_nil] at h9
  obtain ⟨ne1, ne2, ne3, ne4, ne5, ne6, ne7, ne8, ne9, -⟩ := h9
  simp only [vkGetInstanceProcAddr, if_neg ne1, if_neg ne2, if_neg ne3,
    if_neg ne4, if_neg ne5, if_neg ne6, if_neg ne7, if_neg ne8, if_neg ne9]
  simp [h7]

/-- Witness for C2: under `envOk`, after the successful instance creation,
resolving the non-intercepted name `vkDestroyInstance` forwards to the stored
next-segment resolver (driver address 0). -/
theorem c2_non_intercepted_pass_through_witness :
    vkGetInstanceProcAddr envOk ctxAfterOk none nDestroyInstance =
      Except.ok (envOk.ipaSem (FnAddr.driver 0) none nDestroyInstance) :=
  c2_non_intercepted_pass_through envOk ctx0 ctxAfterOk ciW instChainNodeW
    linkW [] (FnAddr.driver 2) (FnAddr.driver 0) (FnAddr.driver 0)
    (FnAddr.driver 0) 7 none nDestroyInstance rfl rfl rfl rfl rfl rfl rfl rfl
    (by decide)

end vk_api
